import Mathlib

/-
Verification of the geotransform repository.

Shallow embedding conventions:
  * src/projection.py is embedded over ℚ (Python floats carrying the exact
    decimal values that occur in the zone arithmetic), with Python's `int()`
    modelled as truncation toward zero (`pyInt`) and exceptions modelled by
    `Except PyErr`.
  * src/coordinate.py is embedded over ℝ (its formulas use sin/cos/sqrt);
    `math.atan2 y x` is `Complex.arg ⟨x, y⟩`, and `cls.pi` is the rational
    literal written in the source, not `Real.pi`.
  * The external pyproj engine is out of scope of the repository; the pieces
    of its interface that the claims need are modelled from the spec where
    noted below.
-/

namespace GeoTransform

/-! ## Embedding of src/projection.py -/

/-- Python exceptions raised by src/projection.py. -/
inductive PyErr where
  | valueError (msg : String)
  | typeError (msg : String)
  | attributeError
deriving DecidableEq, Repr

/-- Error message of `Epsg.__gauss_base` / `Epsg.bj_new_gauss_3` (projection.py lines 62, 116). -/
def rangeMsg : String := "lng 取值范围为：73.5~136.5"

/-- Error message of `TransProj.transformer` when a projected, un-zoned source
has no central meridian (projection.py line 207). -/
def missingLng0Msg : String :=
  "当原有坐标不是经纬度坐标并且输入投影坐标X方向没有带号时，创建对象时必须指定正确的中央经线经度值！"

/-- Message for calling a non-callable object (Python TypeError). -/
def notCallableMsg : String := "'Transformer' object is not callable"

/-- Python's `int()` applied to a float: truncation toward zero. -/
def pyInt (q : ℚ) : ℤ := if q < 0 then ⌈q⌉ else ⌊q⌋

/-- The CRS value returned by `Epsg.crs` (projection.py lines 36-41): the EPSG
code together with the zone number and central meridian that `crs` injects as
the attributes `index` and `lng_0`. -/
structure Crs where
  epsg : ℤ
  index : Option ℤ
  lng_0 : Option ℚ
deriving DecidableEq, Repr

/-- `Epsg.crs` (projection.py lines 36-41). -/
def Epsg.crs (epsg : ℤ) (index : Option ℤ) (lng_0 : Option ℚ) : Crs :=
  ⟨epsg, index, lng_0⟩

/-- `Epsg.calc_number` (projection.py lines 43-45): `int(lng / zone_degree + zone_degree / 6)`. -/
def Epsg.calc_number (lng zone_degree : ℚ) : ℤ :=
  pyInt (lng / zone_degree + zone_degree / 6)

/-- `Epsg.calc_number_lng0` (projection.py lines 47-50): zone number and central meridian. -/
def Epsg.calc_number_lng0 (lng zone_degree : ℚ) : ℤ × ℚ :=
  (Epsg.calc_number lng zone_degree,
   ((Epsg.calc_number lng zone_degree : ℚ) - 1) * zone_degree + 3)

/-- `Epsg.__gauss_base` (projection.py lines 52-62). -/
def Epsg.gauss_base (lng zone_degree : ℚ) (code with_zone_code : ℤ)
    (with_zone : Bool) : Except PyErr Crs :=
  let number := (Epsg.calc_number_lng0 lng zone_degree).1
  let lng_0 := (Epsg.calc_number_lng0 lng zone_degree).2
  let i := number - pyInt (75 / zone_degree + zone_degree / 6)
  if lng_0 - zone_degree / 2 ≤ lng ∧ lng < lng_0 + zone_degree / 2 then
    .ok (Epsg.crs (if with_zone then i + with_zone_code else i + code)
          (some number) (some lng_0))
  else .error (.valueError rangeMsg)

/-- `Epsg.wgs84` (projection.py lines 64-66). -/
def Epsg.wgs84 (_lng : Option ℚ) (_with_zone : Bool) : Except PyErr Crs :=
  .ok (Epsg.crs 4326 none none)

/-- `Epsg.wgs84_3d` (projection.py lines 68-70). -/
def Epsg.wgs84_3d (_lng : Option ℚ) (_with_zone : Bool) : Except PyErr Crs :=
  .ok (Epsg.crs 4979 none none)

/-- `Epsg.xian80` (projection.py lines 72-74). -/
def Epsg.xian80 (_lng : Option ℚ) (_with_zone : Bool) : Except PyErr Crs :=
  .ok (Epsg.crs 4610 none none)

/-- `Epsg.bj_new` (projection.py lines 76-78). -/
def Epsg.bj_new (_lng : Option ℚ) (_with_zone : Bool) : Except PyErr Crs :=
  .ok (Epsg.crs 4555 none none)

/-- `Epsg.cgcs2000` (projection.py lines 80-82). -/
def Epsg.cgcs2000 (_lng : Option ℚ) (_with_zone : Bool) : Except PyErr Crs :=
  .ok (Epsg.crs 4490 none none)

/-- `Epsg.xian80_gauss_3` (projection.py lines 84-86). -/
def Epsg.xian80_gauss_3 (lng : ℚ) (with_zone : Bool) : Except PyErr Crs :=
  Epsg.gauss_base lng 3 2370 2349 with_zone

/-- `Epsg.xian80_gauss_6` (projection.py lines 88-90). -/
def Epsg.xian80_gauss_6 (lng : ℚ) (with_zone : Bool) : Except PyErr Crs :=
  Epsg.gauss_base lng 6 2338 2327 with_zone

/-- `Epsg.bj54_gauss_3` (projection.py lines 92-94). -/
def Epsg.bj54_gauss_3 (lng : ℚ) (with_zone : Bool) : Except PyErr Crs :=
  Epsg.gauss_base lng 3 2422 2401 with_zone

/-- `Epsg.bj_new_gauss_3` (projection.py lines 96-116), with its irregular
identifier table written out exactly as in the source (note line 114 assigns
the literal `4822`, not `i + 4822`). -/
def Epsg.bj_new_gauss_3 (lng : ℚ) (with_zone : Bool) : Except PyErr Crs :=
  let zone_degree : ℚ := 3
  let number := pyInt (lng / zone_degree + zone_degree / 6)
  let lng_0 := ((number : ℚ) - 1) * zone_degree + 3
  let i := number - pyInt (75 / zone_degree + zone_degree / 6)
  if lng_0 - zone_degree / 2 ≤ lng ∧ lng < lng_0 + zone_degree / 2 then
    .ok (Epsg.crs
          (if with_zone then
            (if lng_0 ≤ 87 then i + 4652 else i + 4761)
          else
            (if lng_0 ≤ 129 then i + 4782
             else if lng_0 = 132 then 4812
             else 4822))
          (some number) (some lng_0))
  else .error (.valueError rangeMsg)

/-- `Epsg.bj_new_gauss_6` (projection.py lines 118-120). -/
def Epsg.bj_new_gauss_6 (lng : ℚ) (with_zone : Bool) : Except PyErr Crs :=
  Epsg.gauss_base lng 6 4579 4568 with_zone

/-- `Epsg.cgcs2000_gauss_3` (projection.py lines 122-124). -/
def Epsg.cgcs2000_gauss_3 (lng : ℚ) (with_zone : Bool) : Except PyErr Crs :=
  Epsg.gauss_base lng 3 4534 4513 with_zone

/-- `Epsg.cgcs2000_gauss_6` (projection.py lines 126-128). -/
def Epsg.cgcs2000_gauss_6 (lng : ℚ) (with_zone : Bool) : Except PyErr Crs :=
  Epsg.gauss_base lng 6 4502 4491 with_zone

/-! ### TransProj (projection.py lines 131-253)

An `Epsg` class-method callback is modelled as a `Family`: its `__name__`
string together with the resolution function it performs.  The resolution
function receives the (possibly `None`) central meridian that
`TransProj.transformer` passes at line 242/243. -/

/-- An `Epsg` class-method callback: `__name__` plus the CRS resolution it
performs when called as `proj(lng_0, with_zone)`. -/
structure Family where
  pyname : String
  resolve : Option ℚ → Bool → Except PyErr Crs

/-- Wrap a geodetic (latitude/longitude) `Epsg` method, which ignores both
placeholder arguments. -/
def geodeticFamily (name : String) (c : Except PyErr Crs) : Family :=
  ⟨name, fun _ _ => c⟩

/-- Wrap a zoned Gauss-Krüger `Epsg` method.  Python would fail with a
TypeError if it were ever called with `None` for `lng`; that call never
happens for a correctly-named zoned family. -/
def gaussFamily (name : String) (f : ℚ → Bool → Except PyErr Crs) : Family :=
  ⟨name, fun o wz => match o with
    | some v => f v wz
    | none => .error (.typeError notCallableMsg)⟩

/-- `Epsg.wgs84` as a callback. -/
def wgs84F : Family := geodeticFamily ("wgs84") (.ok (Epsg.crs 4326 none none))

/-- `Epsg.wgs84_3d` as a callback. -/
def wgs84_3dF : Family := geodeticFamily ("wgs84_3d") (.ok (Epsg.crs 4979 none none))

/-- `Epsg.cgcs2000_gauss_3` as a callback. -/
def cgcs2000_gauss_3F : Family := gaussFamily ("cgcs2000_gauss_3") Epsg.cgcs2000_gauss_3

/-- `Epsg.cgcs2000_gauss_6` as a callback. -/
def cgcs2000_gauss_6F : Family := gaussFamily ("cgcs2000_gauss_6") Epsg.cgcs2000_gauss_6

/-- `Epsg.xian80_gauss_3` as a callback. -/
def xian80_gauss_3F : Family := gaussFamily ("xian80_gauss_3") Epsg.xian80_gauss_3

/-- The characters of `name.split('_')[-1]`. -/
def lastNamePart (s : String) : List Char :=
  (s.data.reverse.takeWhile (fun c => c ≠ '_')).reverse

/-- Python's `int(str)` restricted to what the family names need: all-digit
strings parse, everything else raises (modelled as `none`). -/
def digitsToNat? (cs : List Char) : Option ℕ :=
  if cs = [] then none
  else cs.foldl
    (fun acc? c => acc?.bind (fun acc =>
      if c.isDigit then some (acc * 10 + (c.toNat - 48)) else none))
    (some 0)

/-- `int(proj_name.split('_')[-1])` with the surrounding try/except
(projection.py lines 184-192): the zone width parsed from the method name. -/
def parseZoneDegree (s : String) : Option ℕ :=
  digitsToNat? (lastNamePart s)

/-- Python truthiness of the optional float attributes `exist_lng0` /
`target_lng0`: `None` and `0.0` are falsy. -/
def qTruthy : Option ℚ → Bool
  | none => false
  | some v => v != 0

/-- Python truthiness of the parsed zone degree: `None` and `0` are falsy. -/
def natTruthy (o : Option ℕ) : Bool :=
  o.getD 0 != 0

/-- Constructor arguments of `TransProj` (projection.py lines 135-163).
`_transformer` is the pre-built `transformer` parameter, modelled as a cached
handle id. -/
structure TransProjCfg where
  exist_proj : Option Family
  exist_lng0 : Option ℚ
  exist_with_zone : Bool
  target_proj : Option Family
  target_lng0 : Option ℚ
  target_with_zone : Bool
  _transformer : Option ℕ

/-- Projection.py lines 194-210: determine the input central meridian.  When
`self.exist_lng0` is truthy it is used; otherwise, for a zoned projected
family with zone numbers in the easting, the meridian comes from the easting's
zone prefix `int(lng / 1000000)`; for a projected family without zone numbers
a TypeError is raised; for a geodetic family the longitude itself is used. -/
def autoExistLng0 (ezd : Option ℕ) (with_zone : Bool) (lng : ℚ) : Except PyErr ℚ :=
  if natTruthy ezd then
    if with_zone then
      .ok ((pyInt (lng / 1000000) - 1) * ((ezd.getD 0 : ℕ) : ℚ) + 3)
    else .error (.typeError missingLng0Msg)
  else .ok lng

/-- Projection.py lines 194-210 including the `if self.exist_lng0:` guard. -/
def computeExistLng0 (cfg : TransProjCfg) (ezd : Option ℕ) (lng : ℚ) :
    Except PyErr ℚ :=
  if qTruthy cfg.exist_lng0 then .ok (cfg.exist_lng0.getD 0)
  else autoExistLng0 ezd cfg.exist_with_zone lng

/-- Projection.py lines 212-219: the output central meridian falls back to the
input one when `self.target_lng0` is falsy. -/
def computeTargetLng0 (cfg : TransProjCfg) (existLng0 : ℚ) : ℚ :=
  if qTruthy cfg.target_lng0 then cfg.target_lng0.getD 0 else existLng0

/-- Projection.py lines 221-230: canonicalize a central meridian to its zone's
value (`Epsg.calc_number_lng0(v, zd)[-1]`), or `None` for a geodetic family. -/
def canonLng0 (zd : Option ℕ) (v : ℚ) : Option ℚ :=
  if natTruthy zd then some ((Epsg.calc_number_lng0 v ((zd.getD 0 : ℕ) : ℚ)).2)
  else none

/-- The name a family contributes to the transformer key. -/
def familyNameOf : Option Family → String
  | some f => f.pyname
  | none => ""

/-- Resolve a family callback; `getattr(None, ...)`/calling `None` is an
AttributeError in Python, modelled likewise (never reached for the configs the
code accepts). -/
def familyResolve : Option Family → Option ℚ → Bool → Except PyErr Crs
  | some f, o, wz => f.resolve o wz
  | none, _, _ => .error .attributeError

/-- The canonical central-meridian pair (input, output) computed by
`TransProj.transformer` at lines 179-230 from the first coordinate component. -/
def canonicalMeridians (cfg : TransProjCfg) (lng : ℚ) :
    Except PyErr (Option ℚ × Option ℚ) :=
  match cfg.exist_proj, cfg.target_proj with
  | some ep, some tp =>
    let ezd := parseZoneDegree ep.pyname
    let tzd := parseZoneDegree tp.pyname
    match computeExistLng0 cfg ezd lng with
    | .error e => .error e
    | .ok el =>
      let tl := computeTargetLng0 cfg el
      .ok (canonLng0 ezd el, canonLng0 tzd tl)
  | _, _ => .error .attributeError

/-- The six components that projection.py lines 232-235 formats (separated by
`/`) into `transformer_key`.  The formatting is injective on these components
(family names contain no `/`), so the key is modelled by the tuple itself. -/
structure TransKey where
  exist_name : String
  exist_lng_0 : Option ℚ
  exist_with_zone : Bool
  target_name : String
  target_lng_0 : Option ℚ
  target_with_zone : Bool
deriving DecidableEq, Repr

/-- Build the transformer key from the canonical meridians. -/
def mkKey (cfg : TransProjCfg) (el tl : Option ℚ) : TransKey :=
  ⟨familyNameOf cfg.exist_proj, el, cfg.exist_with_zone,
   familyNameOf cfg.target_proj, tl, cfg.target_with_zone⟩

/-- `transformer_key` (projection.py lines 232-235) as computed from a
coordinate's longitude/easting. -/
def transformerKey (cfg : TransProjCfg) (lng : ℚ) : Except PyErr TransKey :=
  (canonicalMeridians cfg lng).map (fun m => mkKey cfg m.1 m.2)

/-- The session store `self.transformers` plus a counter of how many
transformer objects the external engine has constructed; a constructed
transformer is identified by its construction index. -/
structure TransState where
  cache : List (TransKey × ℕ)
  nextId : ℕ
deriving DecidableEq, Repr

/-- Dictionary lookup `transformer_key in self.transformers`. -/
def cacheFind (cache : List (TransKey × ℕ)) (k : TransKey) : Option ℕ :=
  match cache with
  | [] => none
  | (k', t) :: rest => if k' = k then some t else cacheFind rest k

/-- One call of `TransProj.transformer` (projection.py lines 169-248): returns
the transformer handle, the updated session state, and whether a new
transformer had to be constructed.  Modelled from the spec: the external
engine's `Transformer.from_crs` always succeeds once both CRS descriptors
resolve, and construction yields a fresh handle. -/
def transformerStep (cfg : TransProjCfg) (st : TransState) (lng : ℚ) :
    Except PyErr (ℕ × TransState × Bool) :=
  match cfg._transformer with
  | some t => .ok (t, st, false)
  | none =>
    match canonicalMeridians cfg lng with
    | .error e => .error e
    | .ok m =>
      let key := mkKey cfg m.1 m.2
      match cacheFind st.cache key with
      | some t => .ok (t, st, false)
      | none =>
        match familyResolve cfg.exist_proj m.1 cfg.exist_with_zone with
        | .error e => .error e
        | .ok _ =>
          match familyResolve cfg.target_proj m.2 cfg.target_with_zone with
          | .error e => .error e
          | .ok _ => .ok (st.nextId, ⟨st.cache ++ [(key, st.nextId)], st.nextId + 1⟩, true)

/-- A `TransProj` instance.  Modelled from the spec: the external pyproj
`Transformer` handle built by `Transformer.from_pipeline('proj=noop ...')`
exposes only `transform` (spec section 6: build/apply), it has no Python call
protocol, so using it as a callable raises a TypeError.
`transformer_attr_shadowed` records that `__init__` (lines 164-165) stored
that object in the instance attribute `transformer`, which shadows the method
of the same name. -/
structure TransProj where
  cfg : TransProjCfg
  transformer_attr_shadowed : Bool
  st : TransState

/-- `TransProj.__init__` (projection.py lines 135-167). -/
def TransProj.init (cfg : TransProjCfg) : TransProj :=
  ⟨cfg, cfg.exist_proj.isNone && cfg._transformer.isNone, ⟨[], 0⟩⟩

/-- `TransProj.__call__` (projection.py lines 250-253): evaluates
`self.transformer(coordinate)`.  When the instance attribute shadows the
method, this calls the pyproj `Transformer` object itself, which is not
callable (TypeError); otherwise the `transformer` method runs and the handle
it returns is applied to the coordinate by the external engine. -/
def TransProj.call (t : TransProj) (coordinate : ℚ × ℚ) :
    Except PyErr (ℕ × TransState) :=
  if t.transformer_attr_shadowed then .error (.typeError notCallableMsg)
  else (transformerStep t.cfg t.st coordinate.1).map (fun r => (r.1, r.2.1))

/-- The degenerate instance `TransProj()`: no source family, no pre-built
transformer. -/
def identityTransProj : TransProj :=
  TransProj.init ⟨none, none, false, none, none, false, none⟩

/-- The identifier table of `Epsg.bj_new_gauss_3` as claim C4 words it:
per-segment offsets added to the zone index `i`, with bases 4652 (zoned,
central meridian ≤ 87), 4761 (zoned, above 87), 4782 (un-zoned, ≤ 129),
4822 (un-zoned, above 132), and the literal fixed identifier 4812 exactly at
central meridian 132. -/
def bjNewEpsgClaimed (i : ℤ) (lng_0 : ℚ) (with_zone : Bool) : ℤ :=
  if with_zone then (if lng_0 ≤ 87 then i + 4652 else i + 4761)
  else (if lng_0 ≤ 129 then i + 4782 else if lng_0 = 132 then 4812 else i + 4822)

/-- The identifier table `Epsg.bj_new_gauss_3` actually implements: the same
as `bjNewEpsgClaimed` except that above central meridian 132 the identifier is
the literal fixed 4822 (projection.py line 114), not offset-derived. -/
def bjNewEpsgActual (i : ℤ) (lng_0 : ℚ) (with_zone : Bool) : ℤ :=
  if with_zone then (if lng_0 ≤ 87 then i + 4652 else i + 4761)
  else (if lng_0 ≤ 129 then i + 4782 else if lng_0 = 132 then 4812 else 4822)

/-- A `TransProj(exist_proj=Epsg.wgs84, target_proj=Epsg.cgcs2000_gauss_3)`
configuration: geodetic source, zoned projected target, nothing else given. -/
def cfgGeoToGauss : TransProjCfg :=
  ⟨some wgs84F, none, false, some cgcs2000_gauss_3F, none, false, none⟩

/-- A `TransProj(exist_proj=Epsg.cgcs2000_gauss_3, exist_with_zone=True,
target_proj=Epsg.wgs84)` configuration: zoned projected source whose eastings
carry the zone prefix, no explicit central meridian. -/
def cfgZonedSource : TransProjCfg :=
  ⟨some cgcs2000_gauss_3F, none, true, some wgs84F, none, false, none⟩

/-- A configuration with a projected, un-zoned source (zone prefix absent from
eastings) used to exercise the missing-central-meridian error. -/
def cfgUnzonedSource : TransProjCfg :=
  ⟨some cgcs2000_gauss_3F, none, false, some wgs84F, none, false, none⟩

/-! ## Embedding of src/coordinate.py

All arithmetic is over ℝ.  `cls.pi` is the decimal literal written in the
source (not `Real.pi`), `math.sin`/`cos`/`sqrt` are `Real.sin`/`Real.cos`/
`Real.sqrt`, `math.fabs` is `|·|`, and `math.atan2 y x` is `Complex.arg ⟨x, y⟩`
(both have range (-π, π] with the same quadrant conventions).  The returned
two-element lists are modelled as pairs. -/

noncomputable section

namespace CoordTrans

/-- `CoordTrans.x_pi` (coordinate.py line 9). -/
def x_pi : ℝ := 3.14159265358979324 * 3000.0 / 180.0

/-- `CoordTrans.pi` (coordinate.py line 10): the source's own π literal. -/
def pi : ℝ := 3.1415926535897932384626

/-- `CoordTrans.a` (coordinate.py line 11): semi-major axis. -/
def a : ℝ := 6378245.0

/-- `CoordTrans.ee` (coordinate.py line 12): eccentricity squared. -/
def ee : ℝ := 0.00669342162296594323

/-- `CoordTrans.rf` (coordinate.py line 13). -/
def rf : ℝ := 1 / (1 - Real.sqrt (1 - ee))

/-- `CoordTrans.b` (coordinate.py line 14). -/
def b : ℝ := a - a / rf

/-- `math.atan2 y x`. -/
def atan2 (y x : ℝ) : ℝ := Complex.arg ⟨x, y⟩

/-- `CoordTrans.gcj02_to_bd09` (coordinate.py lines 17-30). -/
def gcj02_to_bd09 (lng lat : ℝ) : ℝ × ℝ :=
  let z := Real.sqrt (lng * lng + lat * lat) + 0.00002 * Real.sin (lat * x_pi)
  let theta := atan2 lat lng + 0.000003 * Real.cos (lng * x_pi)
  (z * Real.cos theta + 0.0065, z * Real.sin theta + 0.006)

/-- `CoordTrans.bd09_to_gcj02` (coordinate.py lines 32-47). -/
def bd09_to_gcj02 (bd_lon bd_lat : ℝ) : ℝ × ℝ :=
  let x := bd_lon - 0.0065
  let y := bd_lat - 0.006
  let z := Real.sqrt (x * x + y * y) - 0.00002 * Real.sin (y * x_pi)
  let theta := atan2 y x - 0.000003 * Real.cos (x * x_pi)
  (z * Real.cos theta, z * Real.sin theta)

/-- `CoordTrans._transformlat` (coordinate.py lines 103-114). -/
def transformlat (lng lat : ℝ) : ℝ :=
  -100.0 + 2.0 * lng + 3.0 * lat + 0.2 * lat * lat +
      0.1 * lng * lat + 0.2 * Real.sqrt |lng| +
    (20.0 * Real.sin (6.0 * lng * pi) + 20.0 * Real.sin (2.0 * lng * pi)) * 2.0 / 3.0 +
    (20.0 * Real.sin (lat * pi) + 40.0 * Real.sin (lat / 3.0 * pi)) * 2.0 / 3.0 +
    (160.0 * Real.sin (lat / 12.0 * pi) + 320 * Real.sin (lat * pi / 30.0)) * 2.0 / 3.0

/-- `CoordTrans._transformlng` (coordinate.py lines 116-127). -/
def transformlng (lng lat : ℝ) : ℝ :=
  300.0 + lng + 2.0 * lat + 0.1 * lng * lng +
      0.1 * lng * lat + 0.1 * Real.sqrt |lng| +
    (20.0 * Real.sin (6.0 * lng * pi) + 20.0 * Real.sin (2.0 * lng * pi)) * 2.0 / 3.0 +
    (20.0 * Real.sin (lng * pi) + 40.0 * Real.sin (lng / 3.0 * pi)) * 2.0 / 3.0 +
    (150.0 * Real.sin (lng / 12.0 * pi) + 300.0 * Real.sin (lng / 30.0 * pi)) * 2.0 / 3.0

/-- `CoordTrans.out_of_china` (coordinate.py lines 129-137). -/
def out_of_china (lng lat : ℝ) : Prop :=
  ¬(lng > 73.66 ∧ lng < 135.05 ∧ lat > 3.86 ∧ lat < 53.55)

instance (lng lat : ℝ) : Decidable (out_of_china lng lat) := by
  unfold out_of_china; infer_instance

/-- The latitude in radians computed at coordinate.py line 61/83. -/
def radlat (lat : ℝ) : ℝ := lat / 180.0 * pi

/-- The quantity `magic` after line 63/85: `1 - ee * sin(radlat)^2`. -/
def magic (lat : ℝ) : ℝ :=
  1 - ee * Real.sin (radlat lat) * Real.sin (radlat lat)

/-- The latitude offset `dlat` after coordinate.py line 65/87. -/
def dlat (lng lat : ℝ) : ℝ :=
  transformlat (lng - 105.0) (lat - 35.0) * 180.0 /
    (a * (1 - ee) / (magic lat * Real.sqrt (magic lat)) * pi)

/-- The longitude offset `dlng` after coordinate.py line 66/88. -/
def dlng (lng lat : ℝ) : ℝ :=
  transformlng (lng - 105.0) (lat - 35.0) * 180.0 /
    (a / Real.sqrt (magic lat) * Real.cos (radlat lat) * pi)

/-- `CoordTrans.wgs84_to_gcj02` (coordinate.py lines 49-69). -/
def wgs84_to_gcj02 (lng lat : ℝ) : ℝ × ℝ :=
  if out_of_china lng lat then (lng, lat)
  else (lng + dlng lng lat, lat + dlat lng lat)

/-- `CoordTrans.gcj02_to_wgs84` (coordinate.py lines 71-91): returns
`(lng * 2 - mglng, lat * 2 - mglat)`. -/
def gcj02_to_wgs84 (lng lat : ℝ) : ℝ × ℝ :=
  if out_of_china lng lat then (lng, lat)
  else (lng * 2 - (lng + dlng lng lat), lat * 2 - (lat + dlat lng lat))

/-- `CoordTrans.bd09_to_wgs84` (coordinate.py lines 93-96). -/
def bd09_to_wgs84 (bd_lon bd_lat : ℝ) : ℝ × ℝ :=
  let p := bd09_to_gcj02 bd_lon bd_lat
  gcj02_to_wgs84 p.1 p.2

/-- `CoordTrans.wgs84_to_bd09` (coordinate.py lines 98-101). -/
def wgs84_to_bd09 (lon lat : ℝ) : ℝ × ℝ :=
  let p := wgs84_to_gcj02 lon lat
  gcj02_to_bd09 p.1 p.2

end CoordTrans

end

end GeoTransform

/-! ## Theorems -/

namespace GeoTransform

/-- Python's `int()` agrees with `floor` on non-negative arguments. -/
theorem pyInt_of_nonneg (q : ℚ) (h : 0 ≤ q) : pyInt q = ⌊q⌋ := by
  unfold pyInt; rw [if_neg (not_lt.mpr h)]

/-- Python's `int()` agrees with `ceil` (truncation toward zero) on negative
arguments. -/
theorem pyInt_of_neg (q : ℚ) (h : q < 0) : pyInt q = ⌈q⌉ := by
  unfold pyInt; rw [if_pos h]

/-- C2 (counterexample): at longitude -10 with zone width 6 the code's zone
number is `int(-10/6 + 1) = 0` (truncation toward zero), while the claimed
`floor(-10/6 + 1)` is -1, so the claim fails as stated for arbitrary
longitudes. -/
theorem calc_number_floor_counterexample :
    Epsg.calc_number (-10) 6 = 0 ∧ ⌊(-10 : ℚ) / 6 + 6 / 6⌋ = -1 ∧
    Epsg.calc_number (-10) 6 ≠ ⌊(-10 : ℚ) / 6 + 6 / 6⌋ := by
  have h0 : Epsg.calc_number (-10) 6 = 0 := by
    unfold Epsg.calc_number
    rw [pyInt_of_neg _ (by norm_num)]
    norm_num
  have h1 : ⌊(-10 : ℚ) / 6 + 6 / 6⌋ = -1 := by norm_num
  exact ⟨h0, h1, by rw [h0, h1]; decide⟩

/-- C2 (amended): for zone width 3 or 6 and any non-negative reference
longitude (in particular the whole documented 73.5-136.5 domain), the
resolver computes the zone number as `floor(lng / w + w/6)` and the central
meridian as `(zoneNumber - 1) * w + 3`. -/
theorem calc_number_floor_of_nonneg (lng w : ℚ) (hw : w = 3 ∨ w = 6) (hl : 0 ≤ lng) :
    Epsg.calc_number lng w = ⌊lng / w + w / 6⌋ ∧
    (Epsg.calc_number_lng0 lng w).2 = ((Epsg.calc_number lng w : ℚ) - 1) * w + 3 := by
  have hw0 : 0 < w := by rcases hw with h | h <;> rw [h] <;> norm_num
  have hq : 0 ≤ lng / w + w / 6 :=
    add_nonneg (div_nonneg hl hw0.le) (div_nonneg hw0.le (by norm_num))
  exact ⟨pyInt_of_nonneg _ hq, rfl⟩

/-- C2 (witness): the amended claim evaluated at longitude 114, zone width 3. -/
theorem calc_number_floor_of_nonneg_witness :
    Epsg.calc_number 114 3 = ⌊(114 : ℚ) / 3 + 3 / 6⌋ ∧
    (Epsg.calc_number_lng0 114 3).2 = ((Epsg.calc_number 114 3 : ℚ) - 1) * 3 + 3 :=
  calc_number_floor_of_nonneg 114 3 (Or.inl rfl) (by norm_num)

/-- C3 (code evaluated at the failing inputs): the gauss-base range guard
never fires on the inputs it is documented to reject, because the window is
derived from the longitude itself with truncating `int()`.  Longitude 0 -
far outside the documented 73.5-136.5 domain - resolves without error (to
EPSG 4490, which is not even a projected system), and 113.9, which is
`centralMeridian - 3 - 0.1` for the 117° zone of a 6° family, also resolves
without error by silently falling into the adjacent 111° zone instead of
raising OutOfRange. -/
theorem gauss_range_check_never_fires :
    Epsg.cgcs2000_gauss_6 0 false = .ok (Epsg.crs 4490 (some 1) (some 3)) ∧
    Epsg.cgcs2000_gauss_6 113.9 false = .ok (Epsg.crs 4508 (some 19) (some 111)) := by
  constructor <;>
  · simp only [Epsg.cgcs2000_gauss_6, Epsg.gauss_base, Epsg.calc_number_lng0,
      Epsg.calc_number, pyInt]
    norm_num

/-- C4 (counterexample): at longitude 135 (central meridian 135, zone 45,
un-zoned) the code returns the literal identifier 4822, while the claimed
offset base 4822 would give `i + 4822 = 4842` for zone index `i = 45 - 25`. -/
theorem bj_new_gauss_3_offset_4822_counterexample :
    Epsg.bj_new_gauss_3 135 false = .ok (Epsg.crs 4822 (some 45) (some 135)) ∧
    bjNewEpsgClaimed (45 - 25) 135 false = 4842 ∧ (4822 : ℤ) ≠ 4842 := by
  refine ⟨?_, ?_, by decide⟩
  · simp only [Epsg.bj_new_gauss_3, pyInt]
    norm_num
  · simp only [bjNewEpsgClaimed]
    norm_num

/-- C4 (amended): every successful New Beijing 3° resolution carries exactly
the identifier of the documented per-segment table with boundaries at 87 and
129/132 - offset bases 4652/4761 zoned and 4782 un-zoned - and with the
literal fixed identifiers 4812 at central meridian exactly 132 and 4822 above
132 (both literal, not offset-derived). -/
theorem bj_new_gauss_3_table (lng : ℚ) (wz : Bool) (c : Crs)
    (h : Epsg.bj_new_gauss_3 lng wz = .ok c) :
    c.epsg = bjNewEpsgActual ((c.index.getD 0) - 25) (c.lng_0.getD 0) wz := by
  have h25 : pyInt (75 / 3 + 3 / 6) = 25 := by
    rw [pyInt_of_nonneg _ (by norm_num)]; norm_num
  simp only [Epsg.bj_new_gauss_3, h25] at h
  split at h
  · cases h
    simp only [Epsg.crs, Option.getD, bjNewEpsgActual]
  · cases h

/-- C4 (witness): the amended table claim evaluated at longitude 114,
un-zoned (zone 38, identifier 4782 + 13 = 4795). -/
theorem bj_new_gauss_3_table_witness :
    (Epsg.crs 4795 (some 38) (some 114)).epsg
      = bjNewEpsgActual (((Epsg.crs 4795 (some 38) (some 114)).index.getD 0) - 25)
          ((Epsg.crs 4795 (some 38) (some 114)).lng_0.getD 0) false := by
  refine bj_new_gauss_3_table 114 false _ ?_
  simp only [Epsg.bj_new_gauss_3, pyInt]
  norm_num

/-- C9 (counterexample): with a zone-prefixed easting of -500000 the code
derives central meridian `(int(-0.5) - 1) * 3 + 3 = 0`, while the claimed
floor formula gives `(floor(-0.5) - 1) * 3 + 3 = -3`, so the claim fails as
stated for arbitrary eastings. -/
theorem exist_lng0_prefix_trunc_counterexample :
    computeExistLng0 cfgZonedSource (some 3) (-500000) = .ok 0 ∧
    ((⌊(-500000 : ℚ) / 1000000⌋ : ℚ) - 1) * 3 + 3 = -3 ∧ (0 : ℚ) ≠ -3 := by
  refine ⟨?_, ?_, by norm_num⟩
  · simp only [computeExistLng0, cfgZonedSource, qTruthy, autoExistLng0, natTruthy]
    have hp : pyInt ((-500000 : ℚ) / 1000000) = 0 := by
      rw [pyInt_of_neg _ (by norm_num)]; norm_num
    rw [hp]
    norm_num
  · have hf : ⌊(-500000 : ℚ) / 1000000⌋ = -1 := by norm_num
    rw [hf]; norm_num

/-- C9 (amended): for a zoned source family of width `w` with the zoned flag
set and no truthy caller-supplied central meridian, the derived source
central meridian of any coordinate with non-negative easting `e` is
`(floor(e / 1000000) - 1) * w + 3` - a function of the easting's
zone-number prefix only. -/
theorem exist_lng0_from_zone_prefix (cfg : TransProjCfg) (w : ℕ) (e : ℚ)
    (ht : qTruthy cfg.exist_lng0 = false) (hz : cfg.exist_with_zone = true)
    (hw : w ≠ 0) (he : 0 ≤ e) :
    computeExistLng0 cfg (some w) e = .ok (((⌊e / 1000000⌋ : ℚ) - 1) * (w : ℚ) + 3) := by
  unfold computeExistLng0
  rw [ht]
  simp only [Bool.false_eq_true, if_false]
  unfold autoExistLng0
  have hn : natTruthy (some w) = true := by
    simp [natTruthy, hw]
  rw [hn, hz]
  simp only [if_true]
  rw [pyInt_of_nonneg _ (div_nonneg he (by norm_num))]
  simp

/-- C9 (witness): the amended claim evaluated at easting 19500000 (zone
prefix 19, central meridian 57). -/
theorem exist_lng0_from_zone_prefix_witness :
    computeExistLng0 cfgZonedSource (some 3) 19500000
      = .ok (((⌊(19500000 : ℚ) / 1000000⌋ : ℚ) - 1) * ((3 : ℕ) : ℚ) + 3) :=
  exist_lng0_from_zone_prefix cfgZonedSource 3 19500000 rfl rfl (by decide) (by norm_num)

/-- C10: a caller-supplied central meridian of 0 is falsy, hence treated
exactly as omitted: the source-meridian computation coincides with the
omitted case (and raises the missing-central-meridian TypeError for a
projected source without zone prefix), and a target meridian of 0 silently
falls back to the source-derived meridian. -/
theorem zero_meridian_treated_as_omitted (cfg : TransProjCfg) (z : Option ℕ)
    (w : ℕ) (e v : ℚ) (hw : w ≠ 0) (hz : cfg.exist_with_zone = false) :
    computeExistLng0 { cfg with exist_lng0 := some 0 } z e
      = computeExistLng0 { cfg with exist_lng0 := none } z e ∧
    computeExistLng0 { cfg with exist_lng0 := some 0 } (some w) e
      = .error (.typeError missingLng0Msg) ∧
    computeTargetLng0 { cfg with target_lng0 := some 0 } v
      = computeTargetLng0 { cfg with target_lng0 := none } v ∧
    computeTargetLng0 { cfg with target_lng0 := some 0 } v = v := by
  refine ⟨?_, ?_, ?_, ?_⟩
  · simp [computeExistLng0, qTruthy]
  · simp [computeExistLng0, qTruthy, autoExistLng0, natTruthy, hw, hz]
  · simp [computeTargetLng0, qTruthy]
  · simp [computeTargetLng0, qTruthy]

/-- C10 (witness): the zero-meridian claim evaluated on a concrete projected,
un-zoned configuration with easting 7 and fallback source meridian 9. -/
theorem zero_meridian_treated_as_omitted_witness :
    computeExistLng0 { cfgUnzonedSource with exist_lng0 := some 0 } none 7
      = computeExistLng0 { cfgUnzonedSource with exist_lng0 := none } none 7 ∧
    computeExistLng0 { cfgUnzonedSource with exist_lng0 := some 0 } (some 3) 7
      = .error (.typeError missingLng0Msg) ∧
    computeTargetLng0 { cfgUnzonedSource with target_lng0 := some 0 } 9
      = computeTargetLng0 { cfgUnzonedSource with target_lng0 := none } 9 ∧
    computeTargetLng0 { cfgUnzonedSource with target_lng0 := some 0 } 9 = 9 :=
  zero_meridian_treated_as_omitted cfgUnzonedSource none 3 7 9 (by decide) rfl

/-- C8 (code evaluated at the failing input): the degenerate `TransProj()`
stores the noop pyproj Transformer in the instance attribute `transformer`,
shadowing the method of the same name, so `__call__`'s
`self.transformer(coordinate)` calls a non-callable engine handle and raises
TypeError for every coordinate instead of returning it unchanged. -/
theorem identity_transproj_call_raises (coordinate : ℚ × ℚ) :
    identityTransProj.call coordinate = .error (.typeError notCallableMsg) := rfl

/-- C5: for a fixed configuration, two transformer requests whose longitudes
canonicalize to the same central-meridian pair produce the same cache key;
starting from an empty session store, the first call constructs exactly one
transformer (handle 0, construction counter 1) and the second call returns
that identical cached handle without constructing anything. -/
theorem transformer_cache_single_construction
    (cfg : TransProjCfg) (ep tp : Family) (l1 l2 : ℚ)
    (m : Option ℚ × Option ℚ) (c1 c2 : Crs)
    (hep : cfg.exist_proj = some ep) (htp : cfg.target_proj = some tp)
    (hcust : cfg._transformer = none)
    (h1 : canonicalMeridians cfg l1 = .ok m) (h2 : canonicalMeridians cfg l2 = .ok m)
    (hr1 : ep.resolve m.1 cfg.exist_with_zone = .ok c1)
    (hr2 : tp.resolve m.2 cfg.target_with_zone = .ok c2) :
    transformerKey cfg l1 = transformerKey cfg l2 ∧
    transformerStep cfg ⟨[], 0⟩ l1 = .ok (0, ⟨[(mkKey cfg m.1 m.2, 0)], 1⟩, true) ∧
    transformerStep cfg ⟨[(mkKey cfg m.1 m.2, 0)], 1⟩ l2
      = .ok (0, ⟨[(mkKey cfg m.1 m.2, 0)], 1⟩, false) := by
  have hfr1 : familyResolve cfg.exist_proj m.1 cfg.exist_with_zone = .ok c1 := by
    rw [hep]; exact hr1
  have hfr2 : familyResolve cfg.target_proj m.2 cfg.target_with_zone = .ok c2 := by
    rw [htp]; exact hr2
  refine ⟨?_, ?_, ?_⟩
  · unfold transformerKey; rw [h1, h2]
  · simp only [transformerStep, hcust, h1, cacheFind, hfr1, hfr2, List.nil_append,
      Nat.zero_add]
  · simp only [transformerStep, hcust, h2, cacheFind, if_pos rfl, if_true]

/-- Canonical meridians of the wgs84-to-CGCS2000-3° configuration at
longitude 114: the geodetic source contributes `None`, the zoned target
canonicalizes to central meridian 114. -/
theorem canonicalMeridians_geoToGauss_114 :
    canonicalMeridians cfgGeoToGauss 114 = .ok (none, some 114) := by
  have hp1 : parseZoneDegree ("wgs84") = none := by decide
  have hp2 : parseZoneDegree ("cgcs2000_gauss_3") = some 3 := by decide
  simp only [canonicalMeridians, cfgGeoToGauss, wgs84F, geodeticFamily, cgcs2000_gauss_3F,
    gaussFamily, hp1, hp2, computeExistLng0, computeTargetLng0, autoExistLng0, qTruthy,
    natTruthy, canonLng0, Epsg.calc_number_lng0, Epsg.calc_number, pyInt]
  norm_num

/-- Canonical meridians of the same configuration at 114.0000001 degrees: the
sub-tolerance perturbation canonicalizes to the same meridian pair. -/
theorem canonicalMeridians_geoToGauss_114eps :
    canonicalMeridians cfgGeoToGauss (1140000001 / 10000000) = .ok (none, some 114) := by
  have hp1 : parseZoneDegree ("wgs84") = none := by decide
  have hp2 : parseZoneDegree ("cgcs2000_gauss_3") = some 3 := by decide
  simp only [canonicalMeridians, cfgGeoToGauss, wgs84F, geodeticFamily, cgcs2000_gauss_3F,
    gaussFamily, hp1, hp2, computeExistLng0, computeTargetLng0, autoExistLng0, qTruthy,
    natTruthy, canonLng0, Epsg.calc_number_lng0, Epsg.calc_number, pyInt]
  norm_num

/-- C5 (witness): the cache claim evaluated on the wgs84-to-CGCS2000-3°
configuration at longitudes 114 and 114.0000001, which canonicalize to the
same meridian pair `(None, 114)`. -/
theorem transformer_cache_single_construction_witness :
    transformerKey cfgGeoToGauss 114
      = transformerKey cfgGeoToGauss (1140000001 / 10000000) ∧
    transformerStep cfgGeoToGauss ⟨[], 0⟩ 114
      = .ok (0, ⟨[(mkKey cfgGeoToGauss none (some 114), 0)], 1⟩, true) ∧
    transformerStep cfgGeoToGauss ⟨[(mkKey cfgGeoToGauss none (some 114), 0)], 1⟩
        (1140000001 / 10000000)
      = .ok (0, ⟨[(mkKey cfgGeoToGauss none (some 114), 0)], 1⟩, false) :=
  transformer_cache_single_construction cfgGeoToGauss wgs84F cgcs2000_gauss_3F
    114 (1140000001 / 10000000) (none, some 114)
    (Epsg.crs 4326 none none) (Epsg.crs 4547 (some 38) (some 114))
    rfl rfl rfl canonicalMeridians_geoToGauss_114 canonicalMeridians_geoToGauss_114eps rfl
    (by simp only [cfgGeoToGauss, cgcs2000_gauss_3F, gaussFamily, Epsg.cgcs2000_gauss_3,
          Epsg.gauss_base, Epsg.calc_number_lng0, Epsg.calc_number, pyInt]
        norm_num)

end GeoTransform

namespace GeoTransform.CoordTrans

/-- C6: any point outside the mainland-China bounding box passes through
`wgs84_to_gcj02` exactly unchanged. -/
theorem wgs84_to_gcj02_outside_china_id (lng lat : ℝ) (h : out_of_china lng lat) :
    wgs84_to_gcj02 lng lat = (lng, lat) := by
  rw [wgs84_to_gcj02, if_pos h]

/-- C6 (witness): the pass-through claim evaluated at the origin, which lies
outside the bounding box. -/
theorem wgs84_to_gcj02_outside_china_id_witness : wgs84_to_gcj02 0 0 = (0, 0) :=
  wgs84_to_gcj02_outside_china_id 0 0 (by norm_num [out_of_china])

/-- C7: `wgs84_to_bd09` is definitionally the composition of
`wgs84_to_gcj02` followed by `gcj02_to_bd09` - the same formula path, hence
exactly equal for every point. -/
theorem wgs84_to_bd09_composition (lon lat : ℝ) :
    wgs84_to_bd09 lon lat
      = gcj02_to_bd09 (wgs84_to_gcj02 lon lat).1 (wgs84_to_gcj02 lon lat).2 := rfl

end GeoTransform.CoordTrans

namespace GeoTransform.CoordTrans

/-- Square roots of absolute values bounded by 31.34 are at most 5.6. -/
theorem sqrt_abs_le (x : ℝ) (hx : |x| ≤ 31.34) : Real.sqrt |x| ≤ 5.6 :=
  Real.sqrt_le_iff.mpr ⟨by norm_num, by nlinarith⟩

/-- Crude bound on the longitude correction series over the China box
(arguments shifted by (-105, -35)): every sine is in [-1, 1]. -/
theorem transformlng_abs_le (x y : ℝ) (hx : |x| ≤ 31.34) (hy : |y| ≤ 31.14) :
    |transformlng x y| ≤ 957 := by
  obtain ⟨hx1, hx2⟩ := abs_le.mp hx
  obtain ⟨hy1, hy2⟩ := abs_le.mp hy
  have hxx : x * x ≤ 982.1956 := by nlinarith [abs_mul_abs_self x, abs_nonneg x]
  have hxy : |x * y| ≤ 975.93 := by
    rw [abs_mul]
    nlinarith [abs_nonneg x, abs_nonneg y]
  obtain ⟨hxy1, hxy2⟩ := abs_le.mp hxy
  have s1l := Real.neg_one_le_sin (6.0 * x * pi)
  have s1u := Real.sin_le_one (6.0 * x * pi)
  have s2l := Real.neg_one_le_sin (2.0 * x * pi)
  have s2u := Real.sin_le_one (2.0 * x * pi)
  have s3l := Real.neg_one_le_sin (x * pi)
  have s3u := Real.sin_le_one (x * pi)
  have s4l := Real.neg_one_le_sin (x / 3.0 * pi)
  have s4u := Real.sin_le_one (x / 3.0 * pi)
  have s5l := Real.neg_one_le_sin (x / 12.0 * pi)
  have s5u := Real.sin_le_one (x / 12.0 * pi)
  have s6l := Real.neg_one_le_sin (x / 30.0 * pi)
  have s6u := Real.sin_le_one (x / 30.0 * pi)
  have sq0 : 0 ≤ Real.sqrt |x| := Real.sqrt_nonneg _
  have squ : Real.sqrt |x| ≤ 5.6 := sqrt_abs_le x hx
  unfold transformlng
  rw [abs_le]
  constructor <;> nlinarith

/-- Crude bound on the latitude correction series over the China box. -/
theorem transformlat_abs_le (x y : ℝ) (hx : |x| ≤ 31.34) (hy : |y| ≤ 31.14) :
    |transformlat x y| ≤ 936 := by
  obtain ⟨hx1, hx2⟩ := abs_le.mp hx
  obtain ⟨hy1, hy2⟩ := abs_le.mp hy
  have hyy : y * y ≤ 969.6996 := by nlinarith [abs_mul_abs_self y, abs_nonneg y]
  have hxy : |x * y| ≤ 975.93 := by
    rw [abs_mul]
    nlinarith [abs_nonneg x, abs_nonneg y]
  obtain ⟨hxy1, hxy2⟩ := abs_le.mp hxy
  have s1l := Real.neg_one_le_sin (6.0 * x * pi)
  have s1u := Real.sin_le_one (6.0 * x * pi)
  have s2l := Real.neg_one_le_sin (2.0 * x * pi)
  have s2u := Real.sin_le_one (2.0 * x * pi)
  have s3l := Real.neg_one_le_sin (y * pi)
  have s3u := Real.sin_le_one (y * pi)
  have s4l := Real.neg_one_le_sin (y / 3.0 * pi)
  have s4u := Real.sin_le_one (y / 3.0 * pi)
  have s5l := Real.neg_one_le_sin (y / 12.0 * pi)
  have s5u := Real.sin_le_one (y / 12.0 * pi)
  have s6l := Real.neg_one_le_sin (y * pi / 30.0)
  have s6u := Real.sin_le_one (y * pi / 30.0)
  have sq0 : 0 ≤ Real.sqrt |x| := Real.sqrt_nonneg _
  have squ : Real.sqrt |x| ≤ 5.6 := sqrt_abs_le x hx
  unfold transformlat
  rw [abs_le]
  constructor <;> nlinarith

/-- The quantity `magic` lies in [0.9933, 1] for every latitude. -/
theorem magic_bounds (lat : ℝ) : 0.9933 ≤ magic lat ∧ magic lat ≤ 1 := by
  have h1 := Real.neg_one_le_sin (radlat lat)
  have h2 := Real.sin_le_one (radlat lat)
  unfold magic ee
  constructor <;> nlinarith [mul_self_nonneg (Real.sin (radlat lat))]

/-- The square root of `magic` lies in [0.9966, 1]. -/
theorem sqrt_magic_bounds (lat : ℝ) :
    0.9966 ≤ Real.sqrt (magic lat) ∧ Real.sqrt (magic lat) ≤ 1 := by
  obtain ⟨hm1, hm2⟩ := magic_bounds lat
  constructor
  · rw [show (0.9966 : ℝ) = Real.sqrt (0.9966 ^ 2) from (Real.sqrt_sq (by norm_num)).symm]
    exact Real.sqrt_le_sqrt (by nlinarith)
  · rw [show (1 : ℝ) = Real.sqrt 1 from Real.sqrt_one.symm]
    exact Real.sqrt_le_sqrt hm2

/-- Over the China box latitudes, the radian latitude lies in (0, 0.9347]. -/
theorem radlat_bounds (lat : ℝ) (h3 : 3.86 < lat) (h4 : lat < 53.55) :
    0 < radlat lat ∧ radlat lat ≤ 0.9347 := by
  unfold radlat pi
  constructor <;> nlinarith

/-- Over the China box latitudes, `cos(radlat)` is at least 0.563. -/
theorem cos_radlat_ge (lat : ℝ) (h3 : 3.86 < lat) (h4 : lat < 53.55) :
    0.563 ≤ Real.cos (radlat lat) := by
  obtain ⟨hr0, hr1⟩ := radlat_bounds lat h3 h4
  have hc := Real.one_sub_sq_div_two_le_cos (x := radlat lat)
  nlinarith

/-- The longitude offset applied inside the China box never exceeds 0.0165
degrees in absolute value. -/
theorem dlng_abs_le (lng lat : ℝ) (h1 : 73.66 < lng) (h2 : lng < 135.05)
    (h3 : 3.86 < lat) (h4 : lat < 53.55) : |dlng lng lat| ≤ 0.0165 := by
  have hx : |lng - 105.0| ≤ 31.34 := by rw [abs_le]; constructor <;> linarith
  have hy : |lat - 35.0| ≤ 31.14 := by rw [abs_le]; constructor <;> linarith
  have hT := transformlng_abs_le _ _ hx hy
  obtain ⟨hs1, hs2⟩ := sqrt_magic_bounds lat
  have hc1 := cos_radlat_ge lat h3 h4
  have hc2 := Real.cos_le_one (radlat lat)
  have hsp : 0 < Real.sqrt (magic lat) := by linarith
  have hA1 : (6378245.0 : ℝ) ≤ a / Real.sqrt (magic lat) := by
    rw [le_div_iff₀ hsp]; unfold a; nlinarith
  have hA0 : (0 : ℝ) < a / Real.sqrt (magic lat) := by linarith
  have hDpos : 0 < a / Real.sqrt (magic lat) * Real.cos (radlat lat) * pi := by
    apply mul_pos (mul_pos hA0 (by linarith)) (by unfold pi; norm_num)
  have hAc : (6378245.0 : ℝ) * 0.563
      ≤ a / Real.sqrt (magic lat) * Real.cos (radlat lat) :=
    mul_le_mul hA1 hc1 (by norm_num) (by linarith)
  have hDge : 11280000 ≤ a / Real.sqrt (magic lat) * Real.cos (radlat lat) * pi := by
    unfold pi
    nlinarith [hAc]
  unfold dlng
  rw [abs_div, abs_of_pos hDpos, div_le_iff₀ hDpos, abs_mul]
  have h180 : |(180.0 : ℝ)| = 180 := by norm_num
  rw [h180]
  nlinarith

/-- The latitude offset applied inside the China box never exceeds 0.0085
degrees in absolute value. -/
theorem dlat_abs_le (lng lat : ℝ) (h1 : 73.66 < lng) (h2 : lng < 135.05)
    (h3 : 3.86 < lat) (h4 : lat < 53.55) : |dlat lng lat| ≤ 0.0085 := by
  have hx : |lng - 105.0| ≤ 31.34 := by rw [abs_le]; constructor <;> linarith
  have hy : |lat - 35.0| ≤ 31.14 := by rw [abs_le]; constructor <;> linarith
  have hT := transformlat_abs_le _ _ hx hy
  obtain ⟨hm1, hm2⟩ := magic_bounds lat
  obtain ⟨hs1, hs2⟩ := sqrt_magic_bounds lat
  have hmsp : 0 < magic lat * Real.sqrt (magic lat) := by nlinarith
  have hms1 : magic lat * Real.sqrt (magic lat) ≤ 1 := by nlinarith
  have hA1 : (6335552.0 : ℝ)
      ≤ a * (1 - ee) / (magic lat * Real.sqrt (magic lat)) := by
    rw [le_div_iff₀ hmsp]; unfold a ee; nlinarith
  have hA0 : (0 : ℝ) < a * (1 - ee) / (magic lat * Real.sqrt (magic lat)) := by linarith
  have hDpos : 0 < a * (1 - ee) / (magic lat * Real.sqrt (magic lat)) * pi := by
    apply mul_pos hA0 (by unfold pi; norm_num)
  have hDge : 19900000
      ≤ a * (1 - ee) / (magic lat * Real.sqrt (magic lat)) * pi := by
    unfold pi
    nlinarith [hA1]
  unfold dlat
  rw [abs_div, abs_of_pos hDpos, div_le_iff₀ hDpos, abs_mul]
  have h180 : |(180.0 : ℝ)| = 180 := by norm_num
  rw [h180]
  nlinarith

/-- At the boundary point (135.0499, 40) the longitude correction series is
at least 78 (the polynomial part dominates even with every sine at -1). -/
theorem transformlng_boundary_lb :
    (78 : ℝ) ≤ transformlng (135.0499 - 105.0) (40 - 35.0) := by
  have e1 : (135.0499 : ℝ) - 105.0 = 30.0499 := by norm_num
  have e2 : (40 : ℝ) - 35.0 = 5 := by norm_num
  rw [e1, e2]
  unfold transformlng
  have s1 := Real.neg_one_le_sin (6.0 * (30.0499 : ℝ) * pi)
  have s2 := Real.neg_one_le_sin (2.0 * (30.0499 : ℝ) * pi)
  have s3 := Real.neg_one_le_sin ((30.0499 : ℝ) * pi)
  have s4 := Real.neg_one_le_sin ((30.0499 : ℝ) / 3.0 * pi)
  have s5 := Real.neg_one_le_sin ((30.0499 : ℝ) / 12.0 * pi)
  have s6 := Real.neg_one_le_sin ((30.0499 : ℝ) / 30.0 * pi)
  have h0 : 0 ≤ Real.sqrt |(30.0499 : ℝ)| := Real.sqrt_nonneg _
  nlinarith

/-- At the boundary point (135.0499, 40) the longitude offset is at least
0.0002 degrees — enough to push the GCJ-02 image out of the China box. -/
theorem dlng_boundary_lb : (0.0002 : ℝ) ≤ dlng 135.0499 40 := by
  have hT := transformlng_boundary_lb
  obtain ⟨hs1, hs2⟩ := sqrt_magic_bounds 40
  have hc1 := cos_radlat_ge 40 (by norm_num) (by norm_num)
  have hc2 := Real.cos_le_one (radlat 40)
  have hsp : 0 < Real.sqrt (magic 40) := by linarith
  have hA1 : a / Real.sqrt (magic 40) ≤ 6400010 := by
    rw [div_le_iff₀ hsp]; unfold a; nlinarith
  have hA0 : (0 : ℝ) < a / Real.sqrt (magic 40) := by
    apply div_pos (by unfold a; norm_num) hsp
  have hDpos : 0 < a / Real.sqrt (magic 40) * Real.cos (radlat 40) * pi := by
    apply mul_pos (mul_pos hA0 (by linarith)) (by unfold pi; norm_num)
  have hAc : a / Real.sqrt (magic 40) * Real.cos (radlat 40) ≤ 6400010 :=
    le_trans (mul_le_of_le_one_right hA0.le hc2) hA1
  have hDle : a / Real.sqrt (magic 40) * Real.cos (radlat 40) * pi ≤ 20110000 := by
    unfold pi
    nlinarith [hAc, mul_pos hA0 (show (0 : ℝ) < Real.cos (radlat 40) by linarith)]
  unfold dlng
  rw [le_div_iff₀ hDpos]
  nlinarith [hT, hDle]

/-- C1 (counterexample): the point (135.0499, 40) lies strictly inside the
China bounding box, but its round trip through `wgs84_to_gcj02` and
`gcj02_to_wgs84` moves the longitude by more than 1e-6 degrees: the GCJ-02
image leaves the box (longitude ≥ 135.05), so the inverse passes it through
unchanged and the full positive offset (≥ 2e-4 degrees) remains. -/
theorem roundtrip_1e6_counterexample :
    ((73.66 : ℝ) < 135.0499 ∧ (135.0499 : ℝ) < 135.05 ∧
     (3.86 : ℝ) < 40 ∧ (40 : ℝ) < 53.55) ∧
    ¬(|(gcj02_to_wgs84 (wgs84_to_gcj02 135.0499 40).1
          (wgs84_to_gcj02 135.0499 40).2).1 - 135.0499| ≤ 1e-6) := by
  have hin : ¬ out_of_china 135.0499 40 := by
    intro h
    exact h ⟨by norm_num, by norm_num, by norm_num, by norm_num⟩
  have hg : wgs84_to_gcj02 135.0499 40
      = (135.0499 + dlng 135.0499 40, 40 + dlat 135.0499 40) := by
    rw [wgs84_to_gcj02, if_neg hin]
  have hd := dlng_boundary_lb
  have hout : out_of_china (135.0499 + dlng 135.0499 40) (40 + dlat 135.0499 40) := by
    intro hcontra
    have h' := hcontra.2.1
    linarith
  refine ⟨⟨by norm_num, by norm_num, by norm_num, by norm_num⟩, ?_⟩
  rw [hg]
  rw [show (gcj02_to_wgs84 (135.0499 + dlng 135.0499 40, 40 + dlat 135.0499 40).1
        (135.0499 + dlng 135.0499 40, 40 + dlat 135.0499 40).2)
      = (135.0499 + dlng 135.0499 40, 40 + dlat 135.0499 40) from by
    rw [gcj02_to_wgs84, if_pos hout]]
  intro habs
  rw [abs_le] at habs
  have h2' := habs.2
  simp only [] at h2'
  have he : (135.0499 : ℝ) + dlng 135.0499 40 - 135.0499 = dlng 135.0499 40 := by ring
  rw [he] at h2'
  linarith

/-- C1 (amended): for every point strictly inside the China bounding box the
round trip `gcj02_to_wgs84 (wgs84_to_gcj02 p)` stays within 0.04 degrees of
`p` in each coordinate (it is an approximate inverse, but its error can reach
the size of the offset itself — up to about 1.7e-2 degrees — when the
intermediate GCJ-02 point leaves the box, so the claimed 1e-6 does not hold). -/
theorem roundtrip_bound (lng lat : ℝ) (h1 : 73.66 < lng) (h2 : lng < 135.05)
    (h3 : 3.86 < lat) (h4 : lat < 53.55) :
    |(gcj02_to_wgs84 (wgs84_to_gcj02 lng lat).1 (wgs84_to_gcj02 lng lat).2).1 - lng| ≤ 0.04 ∧
    |(gcj02_to_wgs84 (wgs84_to_gcj02 lng lat).1 (wgs84_to_gcj02 lng lat).2).2 - lat| ≤ 0.04 := by
  have hin : ¬ out_of_china lng lat := fun h => h ⟨h1, h2, h3, h4⟩
  have hg : wgs84_to_gcj02 lng lat = (lng + dlng lng lat, lat + dlat lng lat) := by
    rw [wgs84_to_gcj02, if_neg hin]
  have hdl := dlng_abs_le lng lat h1 h2 h3 h4
  have hda := dlat_abs_le lng lat h1 h2 h3 h4
  obtain ⟨hdl1, hdl2⟩ := abs_le.mp hdl
  obtain ⟨hda1, hda2⟩ := abs_le.mp hda
  rw [hg]
  by_cases hO : out_of_china (lng + dlng lng lat) (lat + dlat lng lat)
  · rw [show (gcj02_to_wgs84 (lng + dlng lng lat, lat + dlat lng lat).1
          (lng + dlng lng lat, lat + dlat lng lat).2)
        = (lng + dlng lng lat, lat + dlat lng lat) from by
      rw [gcj02_to_wgs84, if_pos hO]]
    constructor
    · rw [abs_le]; constructor <;> simp only [] <;> linarith
    · rw [abs_le]; constructor <;> simp only [] <;> linarith
  · have hbox : 73.66 < lng + dlng lng lat ∧ lng + dlng lng lat < 135.05 ∧
        3.86 < lat + dlat lng lat ∧ lat + dlat lng lat < 53.55 := by
      by_contra hc
      exact hO hc
    obtain ⟨g1, g2, g3, g4⟩ := hbox
    have hdl' := dlng_abs_le _ _ g1 g2 g3 g4
    have hda' := dlat_abs_le _ _ g1 g2 g3 g4
    obtain ⟨hdl1', hdl2'⟩ := abs_le.mp hdl'
    obtain ⟨hda1', hda2'⟩ := abs_le.mp hda'
    rw [show (gcj02_to_wgs84 (lng + dlng lng lat, lat + dlat lng lat).1
          (lng + dlng lng lat, lat + dlat lng lat).2)
        = ((lng + dlng lng lat) * 2 -
            ((lng + dlng lng lat) + dlng (lng + dlng lng lat) (lat + dlat lng lat)),
           (lat + dlat lng lat) * 2 -
            ((lat + dlat lng lat) + dlat (lng + dlng lng lat) (lat + dlat lng lat))) from by
      rw [gcj02_to_wgs84, if_neg hO]]
    constructor
    · rw [abs_le]; constructor <;> simp only [] <;> linarith
    · rw [abs_le]; constructor <;> simp only [] <;> linarith

/-- C1 (witness): the amended round-trip bound evaluated at (100, 30), a
point strictly inside the China bounding box. -/
theorem roundtrip_bound_witness :
    |(gcj02_to_wgs84 (wgs84_to_gcj02 100 30).1 (wgs84_to_gcj02 100 30).2).1 - 100| ≤ 0.04 ∧
    |(gcj02_to_wgs84 (wgs84_to_gcj02 100 30).1 (wgs84_to_gcj02 100 30).2).2 - 30| ≤ 0.04 :=
  roundtrip_bound 100 30 (by norm_num) (by norm_num) (by norm_num) (by norm_num)

end GeoTransform.CoordTrans
